import Mathlib

/-
Verification development for the ReforgeHQ Go SDK client core.

The definitions below are a shallow embedding of the Go source:
  - sdk.go: the typed getter pipeline, the WithDefault wrappers, the
    initialization latch handling in internalGetValue, GetLogLevel, and the
    NewSdk construction-time validation;
  - internal/sse/sseclient.go: BuildSSEClient, StartSSEConnection and
    replaceFirstOccurrence;
  - internal/options (SdkKeySettingOrEnvVar, PrefabAPIURLEnvVarOrSetting,
    the env var names and defaults).

Machine integers (int64) are modelled as Int, byte slices as List Nat
(each element < 256 by construction of the encoders), Go errors as
Except String / Option String, nilable pointers as Option, and the
process environment as a total function String -> String in which the
empty string denotes an unset variable, exactly as os.Getenv reports it.
-/

namespace Reforge

/-! ## Data model (proto enums, ConfigValue, Config, ConfigMatch) -/

/-- The proto LogLevel enum (proto/prefab.pb.go). -/
inductive ProtoLogLevel where
  | notSetLogLevel
  | trace
  | debug
  | info
  | warn
  | error
  | fatal
deriving DecidableEq, Repr

/-- The SDK LogLevel enum from sdk.go (Trace = 1 .. Fatal = 6). -/
inductive LogLevel where
  | Trace
  | Debug
  | Info
  | Warn
  | Error
  | Fatal
deriving DecidableEq, Repr

/-- protoLogLevelToLogLevel from sdk.go: converts a proto LogLevel to the
SDK LogLevel, defaulting to Debug for unknown or unset levels. -/
def protoLogLevelToLogLevel : ProtoLogLevel → LogLevel
  | .trace => .Trace
  | .debug => .Debug
  | .info => .Info
  | .warn => .Warn
  | .error => .Error
  | .fatal => .Fatal
  | .notSetLogLevel => .Debug

/-- The proto ConfigType enum; only the tags the embedded code inspects. -/
inductive ConfigType where
  | notSetConfigType
  | config
  | featureFlag
  | logLevelV2
  | segment
deriving DecidableEq, Repr

/-- A ConfigValue: the tagged union at the leaves of a Config. Only the
variants the embedded client code inspects are distinguished; every other
shape can be represented by the str and int variants. -/
inductive ConfigValueT where
  | str (s : String)
  | int (i : Int)
  | bool (b : Bool)
  | logLevel (l : ProtoLogLevel)
deriving DecidableEq, Repr

/-- A Config, restricted to the fields the embedded code reads (key and
config type tag). -/
structure Config where
  key : String
  configType : ConfigType
deriving DecidableEq, Repr

/-- internal.ConfigMatch (fields visible in internal/config_resolver_test.go):
the resolver output consumed by sdk.go. matchValue models the nilable
Match pointer, originalMatch the nilable OriginalMatch pointer. -/
structure ConfigMatch where
  isMatch : Bool
  matchValue : Option ConfigValueT
  originalMatch : Option ConfigValueT
deriving DecidableEq, Repr

/-- Modelled from the spec: the contexts package is not under src. A
ContextSet is an ordered mapping from name to a property bag (section 3 of
the spec); property values here are strings, which covers every context the
embedded code constructs. -/
abbrev ContextSet := List (String × List (String × String))

/-- Modelled from the spec: contexts.Merge is right-biased by name and does
not mutate its arguments (spec section 3); named contexts from the right
side replace same-named entries on the left. -/
def ctxMerge (left right : ContextSet) : ContextSet :=
  (left.filter (fun p => right.all (fun q => q.1 ≠ p.1))) ++ right

/-! ## Typed getter pipeline (sdk.go) -/

/-- Error message from ContextBoundClient.fetchAndProcessValue. -/
def noDefaultErrorMessage : String :=
  "config did not produce a result and no default is specified"

/-- clientParseValueWrapper from sdk.go: applies parseFunc when the
ConfigValue pointer is non-nil, otherwise reports failure. -/
def clientParseValueWrapper {T : Type} (cv : Option ConfigValueT)
    (parseFunc : ConfigValueT → Option T) : Option T :=
  match cv with
  | some v => parseFunc v
  | none => none

/-- ContextBoundClient.fetchAndProcessValue from sdk.go. internalGetValue
(which consults the initialization latch and the resolver) is passed in as
a function, since its collaborators live behind interfaces; the embedding
keeps the control flow of the body: an error from internalGetValue is
propagated, a nil Match becomes the no-default error, a parser rejection
becomes (nil, false, nil). -/
def fetchAndProcessValue {T : Type}
    (internalGetValue : String → ContextSet → Except String ConfigMatch)
    (key : String) (contextSet : ContextSet)
    (parser : Option ConfigValueT → Option T) :
    Option T × Bool × Option String :=
  match internalGetValue key contextSet with
  | .error e => (none, false, some e)
  | .ok m =>
    match m.matchValue with
    | none => (none, false, some noDefaultErrorMessage)
    | some mv =>
      match parser (some mv) with
      | none => (none, false, none)
      | some v => (some v, true, none)

/-- clientInternalGetValueFunc from sdk.go: merges the bound context with
the call context, fetches and parses, and maps failures to the zero value
of T. The Go type assertion on the boxed any value always succeeds in this
typed embedding; the telemetry recording is a side effect with no bearing
on the returned triple and is omitted. -/
def clientInternalGetValueFunc {T : Type} [Inhabited T]
    (internalGetValue : String → ContextSet → Except String ConfigMatch)
    (boundContext : ContextSet) (key : String) (contextSet : ContextSet)
    (parseFunc : ConfigValueT → Option T) : T × Bool × Option String :=
  let mergedContextSet := ctxMerge boundContext contextSet
  match fetchAndProcessValue internalGetValue key mergedContextSet
      (fun cv => clientParseValueWrapper cv parseFunc) with
  | (fetchResult, fetchOk, fetchErr) =>
    if fetchErr.isSome || !fetchOk then (default, false, fetchErr)
    else
      match fetchResult with
      | none => (default, false, none)
      | some v => (v, true, none)

/-- The shared body of every Get*ValueWithDefault method on
ContextBoundClient (sdk.go): call the typed getter, and on error or
ok=false substitute the caller default, reporting wasFound=true. -/
def getValueWithDefault {T : Type} [Inhabited T]
    (internalGetValue : String → ContextSet → Except String ConfigMatch)
    (boundContext : ContextSet) (key : String) (contextSet : ContextSet)
    (parseFunc : ConfigValueT → Option T) (defaultValue : T) : T × Bool :=
  match clientInternalGetValueFunc internalGetValue boundContext key contextSet parseFunc with
  | (value, ok, err) =>
    if err.isSome || !ok then (defaultValue, true) else (value, ok)

/-! ## Options package: SDK key resolution and API URLs (internal/options) -/

/-- SdkKeyEnvVar from internal/options: the preferred SDK key env var. -/
def SdkKeyEnvVar : String := "REFORGE_BACKEND_SDK_KEY"

/-- LegacyApiKeyEnvVar from internal/options: the legacy alias. -/
def LegacyApiKeyEnvVar : String := "PREFAB_API_KEY"

/-- APIURLVar from internal/options. -/
def APIURLVar : String := "REFORGE_API_URL"

/-- The REFORGE_API_URL_OVERRIDE env var name read by
PrefabAPIURLEnvVarOrSetting and GetDefaultOptions. -/
def APIURLOverrideVar : String := "REFORGE_API_URL_OVERRIDE"

/-- GetDefaultAPIURLs from internal/options. -/
def GetDefaultAPIURLs : List String :=
  ["https://primary.reforge.com", "https://secondary.reforge.com"]

/-- Error message produced by SdkKeySettingOrEnvVar when no key is found. -/
def sdkKeyMissingErrorMessage : String :=
  "SDK key is not set and not found in environment variables"

/-- Options.SdkKeySettingOrEnvVar from internal/options: use the in-options
key when non-empty, otherwise the preferred env var, otherwise the legacy
env var; error when all three are empty. The Go method also writes the
resolved key back into the options value, which the returned value already
captures. The environment is the function env, with the empty string
denoting an unset variable, as with os.Getenv. -/
def sdkKeySettingOrEnvVar (env : String → String) (sdkKey : String) :
    Except String String :=
  if sdkKey = "" then
    let envSdkKey := env SdkKeyEnvVar
    let envSdkKey2 := if envSdkKey = "" then env LegacyApiKeyEnvVar else envSdkKey
    if envSdkKey2 = "" then .error sdkKeyMissingErrorMessage
    else .ok envSdkKey2
  else .ok sdkKey

/-- A config source descriptor; the embedded validation code reads only the
Raw field (sdk.go line 139). -/
structure ConfigSource where
  raw : String
deriving DecidableEq, Repr

/-- Modelled from the spec: options.MemoryStoreKey, the Raw value naming
the inline-map (memory) store, is defined in the options sources file which
is not under src; only equality against it matters to the embedded check. -/
def MemoryStoreKey : String := "memory"

/-- The slice of options fields read by the embedded construction and SSE
code. apiURLs is an Option to model the Go distinction between a nil slice
and an empty one, which PrefabAPIURLEnvVarOrSetting inspects. configs is
the inline-configs map (only emptiness matters to the embedded checks) and
customStores the list of caller-supplied stores. -/
structure OptionsModel where
  sdkKey : String
  apiURLs : Option (List String)
  sources : List ConfigSource
  configs : List (String × String)
  customStores : List String
deriving Repr

/-- Error message from Options.PrefabAPIURLEnvVarOrSetting for a blank
REFORGE_API_URL. -/
def apiURLBlankErrorMessage : String :=
  "environment variable REFORGE_API_URL is blank"

/-- The comma separator used to split REFORGE_API_URL. -/
def commaSeparator : String := ","

/-- Options.PrefabAPIURLEnvVarOrSetting from internal/options: REFORGE_API_URL
(comma-separated, blanks dropped, error when nothing remains) takes
precedence; otherwise REFORGE_API_URL_OVERRIDE, otherwise the non-empty
entries of the configured list; finally, when the configured slice is nil,
the whole result is replaced by the two canonical defaults. -/
def prefabAPIURLEnvVarOrSetting (env : String → String)
    (apiURLs : Option (List String)) : Except String (List String) :=
  if env APIURLVar ≠ "" then
    let urls := ((env APIURLVar).splitOn commaSeparator).filter (fun u => u ≠ "")
    if urls = [] then .error apiURLBlankErrorMessage else .ok urls
  else
    let fromSetting :=
      if env APIURLOverrideVar ≠ "" then [env APIURLOverrideVar]
      else (apiURLs.getD []).filter (fun u => u ≠ "")
    if apiURLs = none then .ok GetDefaultAPIURLs else .ok fromSetting

/-! ## NewSdk construction-time validation (sdk.go) -/

/-- Error message at sdk.go line 140. -/
def configsWithSourcesErrorMessage : String :=
  "cannot use WithConfigs with other sources"

/-- Error message at sdk.go line 144. -/
def configsWithCustomStoresErrorMessage : String :=
  "cannot use WithConfigs with custom stores"

/-- The source-list side of the check at sdk.go line 139: more than one
source, or a single source whose Raw is not the memory store key. -/
def usesNonMemorySource (sources : List ConfigSource) : Bool :=
  decide (sources.length > 1) ||
    (decide (sources.length = 1) &&
      (match sources with
       | s :: _ => decide (s.raw ≠ MemoryStoreKey)
       | [] => false))

/-- The store-building loop of NewSdk: build is stores.BuildConfigStore
(not under src) abstracted to its error/asyncInit outcome per source; the
loop propagates the first build error and accumulates whether any source
loads asynchronously. -/
def buildAllStores (build : ConfigSource → Except String Bool) :
    List ConfigSource → Except String Bool
  | [] => .ok false
  | s :: rest =>
    match build s with
    | .error e => .error e
    | .ok asyncInit =>
      match buildAllStores build rest with
      | .error e => .error e
      | .ok anyAsync => .ok (asyncInit || anyAsync)

/-- The observable outcome of NewSdk for the embedded checks: the resolved
SDK key and whether the initialization latch is already closed at
construction (the no-async-source path). -/
structure ClientModel where
  sdkKey : String
  latchClosedAtConstruction : Bool
deriving DecidableEq, Repr

/-- NewSdk from sdk.go, restricted to its construction-time decision
sequence: resolve the SDK key (error aborts construction), build a store
per source (first error aborts), reject inline configs combined with a
non-memory source list, reject inline configs combined with custom stores,
and otherwise construct the client, closing the latch immediately when no
source is asynchronous. -/
def newSdk (env : String → String) (build : ConfigSource → Except String Bool)
    (o : OptionsModel) : Except String ClientModel :=
  match sdkKeySettingOrEnvVar env o.sdkKey with
  | .error e => .error e
  | .ok key =>
    match buildAllStores build o.sources with
    | .error e => .error e
    | .ok anyAsync =>
      if usesNonMemorySource o.sources && decide (o.configs.length > 0) then
        .error configsWithSourcesErrorMessage
      else if decide (o.customStores.length > 0) && decide (o.configs.length > 0) then
        .error configsWithCustomStoresErrorMessage
      else .ok { sdkKey := key, latchClosedAtConstruction := !anyAsync }

/-- True exactly on the error branch of an Except. -/
def isErrorResult {α : Type} : Except String α → Bool
  | .error _ => true
  | .ok _ => false

/-! ## Initialization latch (sdk.go: initializationComplete channel and
closeInitializationCompleteOnce) -/

/-- The result type of Client.awaitInitialization. -/
inductive AwaitResult where
  | success
  | timeout
deriving DecidableEq, Repr

/-- The OnInitializationFailure policy from internal/options. -/
inductive FailureMode where
  | returnError
  | returnNilMatch
deriving DecidableEq, Repr

/-- The latch-relevant client state: whether the initializationComplete
channel has been closed. -/
structure LatchState where
  latchClosed : Bool
deriving DecidableEq, Repr

/-- Client.awaitInitialization (sdk.go lines 619-628), specialised to a
client whose async sources never complete: the select receives on the
closed channel immediately when the latch is closed, and otherwise blocks
for the full InitializationTimeoutSeconds and reports timeout. -/
def awaitInitializationNeverReady (s : LatchState) : AwaitResult :=
  if s.latchClosed then .success else .timeout

/-- The error message returned by internalGetValue on a latch timeout in
ReturnError mode. -/
def initializationTimeoutErrorMessage : String := "initialization timeout"

/-- The latch-handling prefix of Client.internalGetValue (sdk.go lines
560-570), for a client whose async sources never complete: on timeout,
ReturnNilMatch closes the channel through the once guard and falls through
to resolution, while ReturnError returns the initialization timeout error;
note the ReturnError arm does not close the channel. The returned pair is
the successor latch state and the error, if any, surfaced to the caller
(resolution itself is irrelevant to the latch and elided). -/
def internalGetValueLatchStep (mode : FailureMode) (s : LatchState) :
    LatchState × Option String :=
  match awaitInitializationNeverReady s with
  | .timeout =>
    match mode with
    | .returnNilMatch => ({ latchClosed := true }, none)
    | .returnError => (s, some initializationTimeoutErrorMessage)
  | .success => (s, none)

/-- The three kinds of event that invoke
closeInitializationCompleteOnce.Do(close) in the source: the callback
handed to an async source (sdk.go lines 118-122, which a source may fire
repeatedly), the synchronous-sources path at construction (lines 167-171),
and a waiter timing out under ReturnNilMatch (lines 563-566 and the
matching arm of Keys). -/
inductive LatchEvent where
  | asyncSourceReady
  | syncConstruct
  | nilMatchTimeout
deriving DecidableEq, Repr

/-- The state of the once-guarded channel close: the sync.Once flag, the
channel flag, the number of close operations executed, and the number of
close operations executed against an already-closed channel (a Go runtime
panic if ever positive). -/
structure OnceLatch where
  onceDone : Bool
  closed : Bool
  closes : Nat
  closesOnClosed : Nat
deriving DecidableEq, Repr

/-- The initial latch state of a freshly constructed client. -/
def initialOnceLatch : OnceLatch :=
  { onceDone := false, closed := false, closes := 0, closesOnClosed := 0 }

/-- closeInitializationCompleteOnce.Do(func to close the channel): runs the
close exactly when the Once has not yet fired. sync.Once serialises
concurrent callers, so an interleaving of atomic Do calls is a sound model
of every concurrent schedule of these events. -/
def onceDoClose (s : OnceLatch) : OnceLatch :=
  if s.onceDone then s
  else
    { onceDone := true
      closed := true
      closes := s.closes + 1
      closesOnClosed := s.closesOnClosed + (if s.closed then 1 else 0) }

/-- Every LatchEvent reaches the channel only through the once guard. -/
def applyLatchEvent (s : OnceLatch) (_ : LatchEvent) : OnceLatch :=
  onceDoClose s

/-- Run an interleaving of latch events from the initial client state. -/
def runLatchEvents (events : List LatchEvent) : OnceLatch :=
  events.foldl applyLatchEvent initialOnceLatch

/-! ## SSE stream client (internal/sse/sseclient.go) -/

/-- The URL suffix appended by BuildSSEClient. -/
def streamSuffix : String := "/api/v2/sse/config"

/-- The replacement text for the subdomain regex. -/
def streamDotChars : List Char := "stream.".toList

/-- The first regex alternative, primary dot. -/
def primaryDotChars : List Char := "primary.".toList

/-- The second regex alternative, secondary dot. -/
def secondaryDotChars : List Char := "secondary.".toList

/-- Whether the regex alternation of subdomainRegex matches at offset i of
the character list s, and with which match length: Go regexp alternation
tries primary dot first; the two alternatives start with different letters
so at most one can match at a given offset. -/
def altAt (s : List Char) (i : Nat) : Option Nat :=
  if primaryDotChars.isPrefixOf (s.drop i) then some primaryDotChars.length
  else if secondaryDotChars.isPrefixOf (s.drop i) then some secondaryDotChars.length
  else none

/-- replaceFirstOccurrence from sseclient.go, specialised to subdomainRegex
and the replacement stream dot: FindStringIndex returns the leftmost match
(scanning offsets left to right), and the match is spliced out for the
replacement; with no match the string is returned unchanged. -/
def replaceFirstOccurrenceChars : List Char → List Char
  | [] => []
  | c :: rest =>
    match altAt (c :: rest) 0 with
    | some n => streamDotChars ++ (c :: rest).drop n
    | none => c :: replaceFirstOccurrenceChars rest

/-- The stream URL derivation in BuildSSEClient: replace the first
occurrence of the subdomain regex with the stream subdomain and append the
SSE path suffix. -/
def buildStreamURL (base : String) : String :=
  ⟨replaceFirstOccurrenceChars base.toList⟩ ++ streamSuffix

/-- UTF-8 encoding of one Unicode code point, as Go produces for a byte
slice conversion of a string. -/
def utf8BytesOfCodePoint (c : Nat) : List Nat :=
  if c < 128 then [c]
  else if c < 2048 then [192 + c / 64, 128 + c % 64]
  else if c < 65536 then [224 + c / 4096, 128 + (c / 64) % 64, 128 + c % 64]
  else [240 + c / 262144, 128 + (c / 4096) % 64, 128 + (c / 64) % 64, 128 + c % 64]

/-- The bytes of a Go string: the UTF-8 encoding of its code points. -/
def strBytes (s : String) : List Nat :=
  (s.toList.map (fun c => utf8BytesOfCodePoint c.toNat)).flatten

/-- The standard base64 alphabet used by encoding/base64 StdEncoding. -/
def b64AlphabetChars : List Char :=
  "ABCDEFGHIJKLMNOPQRSTUVWXYZabcdefghijklmnopqrstuvwxyz0123456789+/".toList

/-- The base64 digit for a 6-bit value. -/
def b64Char (n : Nat) : Char := b64AlphabetChars.getD n (Char.ofNat 65)

/-- Standard base64 encoding with padding over a byte list, three input
bytes to four output characters, as encoding/base64 StdEncoding
EncodeToString performs. -/
def base64EncodeChunks : List Nat → List Char
  | b0 :: b1 :: b2 :: rest =>
    b64Char (b0 / 4) :: b64Char ((b0 % 4) * 16 + b1 / 16) ::
      b64Char ((b1 % 16) * 4 + b2 / 64) :: b64Char (b2 % 64) ::
      base64EncodeChunks rest
  | [b0, b1] =>
    [b64Char (b0 / 4), b64Char ((b0 % 4) * 16 + b1 / 16),
      b64Char ((b1 % 16) * 4), Char.ofNat 61]
  | [b0] => [b64Char (b0 / 4), b64Char ((b0 % 4) * 16), Char.ofNat 61, Char.ofNat 61]
  | [] => []

/-- encoding/base64 StdEncoding EncodeToString over a byte list. -/
def base64EncodeToString (bytes : List Nat) : String :=
  ⟨base64EncodeChunks bytes⟩

/-- The fixed basic-auth user of BuildSSEClient, with the separating colon. -/
def authUserColonStr : String := "authuser:"

/-- The Authorization scheme text written by BuildSSEClient. -/
def basicSchemeStr : String := "Basic "

/-- The Authorization header name. -/
def authorizationHeaderKey : String := "Authorization"

/-- The SDK version header name written by BuildSSEClient. -/
def sdkVersionHeaderKey : String := "X-Reforge-SDK-Version"

/-- The Accept header name. -/
def acceptHeaderKey : String := "Accept"

/-- The Accept header value written by BuildSSEClient. -/
def acceptHeaderValue : String := "text/event-stream"

/-- The resume header name written by StartSSEConnection on each attempt. -/
def resumeHeaderKey : String := "x-prefab-start-at-id"

/-- Error message for an empty API URL list in BuildSSEClient. -/
def noApiUrlsErrorMessage : String := "no api urls provided"

/-- The sse.Client state the embedding tracks: the stream URL and the
request header map (modelled as an association list with unique keys). -/
structure SSEClientModel where
  url : String
  headers : List (String × String)
deriving DecidableEq, Repr

/-- Go map assignment on the header association list: replace the entry
with the given key, or append one when absent. -/
def setHeader (hs : List (String × String)) (k v : String) :
    List (String × String) :=
  if hs.any (fun p => p.1 = k) then
    hs.map (fun p => if p.1 = k then (k, v) else p)
  else hs ++ [(k, v)]

/-- Go map read on the header association list. -/
def lookupHeader (hs : List (String × String)) (k : String) : Option String :=
  (hs.find? (fun p => p.1 = k)).map (fun p => p.2)

/-- BuildSSEClient from sseclient.go: resolve the API URL list (error when
it resolves empty), build the basic-auth credential from the fixed user and
the SDK key, derive the stream URL from the first API URL, and install the
Authorization, SDK-version and Accept headers. The version header value
(internal.ClientVersionHeader, whose definition is not under src) is passed
in as clientVersionHeaderValue. -/
def buildSSEClient (env : String → String) (clientVersionHeaderValue : String)
    (o : OptionsModel) : Except String SSEClientModel :=
  match prefabAPIURLEnvVarOrSetting env o.apiURLs with
  | .error e => .error e
  | .ok apiURLs =>
    match apiURLs with
    | [] => .error noApiUrlsErrorMessage
    | u :: _ =>
      let authString := base64EncodeToString (strBytes (authUserColonStr ++ o.sdkKey))
      .ok { url := buildStreamURL u
            headers := [(authorizationHeaderKey, basicSchemeStr ++ authString),
                        (sdkVersionHeaderKey, clientVersionHeaderValue),
                        (acceptHeaderKey, acceptHeaderValue)] }

/-- The per-attempt header update of the StartSSEConnection loop: before
each Subscribe call (initial connect and every reconnect) the resume header
is set to the decimal rendering of the store high-watermark read at that
moment. Given the headers carried into the loop and the sequence of
watermark values read at the successive attempts, this returns the header
map in effect at each Subscribe call. -/
def sseAttemptHeaders (headers : List (String × String)) :
    List Int → List (List (String × String))
  | [] => []
  | w :: ws =>
    let h := setHeader headers resumeHeaderKey (toString w)
    h :: sseAttemptHeaders h ws

/-- The subscription event handler installed by StartSSEConnection,
abstracted over the two external decoders it composes: base64 StdEncoding
Decode (decodeBase64, none on malformed input) and proto.Unmarshal for the
Configs message (unmarshalConfigs). The returned list is the sequence of
SetFromConfigsProto calls the handler performs on the store: empty data is
skipped, a decode or unmarshal failure is logged and discarded, and only a
fully decoded snapshot reaches the store, exactly once. The handler is a
total function, so it cannot crash on any input. -/
def sseEventHandler {Configs : Type}
    (decodeBase64 : List Nat → Option (List Nat))
    (unmarshalConfigs : List Nat → Option Configs)
    (data : List Nat) : List Configs :=
  if data.length = 0 then []
  else
    match decodeBase64 data with
    | none => []
    | some decoded =>
      match unmarshalConfigs decoded with
      | none => []
      | some configs => [configs]

/-! ## Log level lookup (sdk.go GetLogLevel) -/

/-- The synthetic-context name used by GetLogLevel. -/
def sdkLoggingContextName : String := "reforge-sdk-logging"

/-- The lang property key of the synthetic logging context. -/
def langPropertyKey : String := "lang"

/-- The lang property value of the synthetic logging context. -/
def goLangValue : String := "go"

/-- The logger-path property key of the synthetic logging context. -/
def loggerPathPropertyKey : String := "logger-path"

/-- The synthetic context GetLogLevel builds via
NewContextSet().WithNamedContextValues for a logger name: a single named
context reforge-sdk-logging carrying lang=go and logger-path=name. -/
def syntheticLoggingContext (loggerName : String) : ContextSet :=
  [(sdkLoggingContextName,
    [(langPropertyKey, goLangValue), (loggerPathPropertyKey, loggerName)])]

/-- Modelled from the spec: utils.ExtractLogLevelValue is one of the typed
value extractors the spec treats as external collaborators (not under src);
it unwraps a resolved ConfigValue into a log level, failing on a nil value
or any other variant. -/
def extractLogLevelValue : Option ConfigValueT → Option ProtoLogLevel
  | some (.logLevel l) => some l
  | _ => none

/-- ContextBoundClient.GetLogLevel from sdk.go: build the synthetic logging
context, ask GetConfigMatch for the configured logger key (any error, and
the nil match it implies, falls back to Debug), check via GetConfig that
the config is of type LOG_LEVEL_V2 (otherwise Debug), extract the log
level from the original match (failure gives Debug) and convert it. The
two collaborators GetConfigMatch and GetConfig are the resolver and the
composite store behind interfaces and are passed in as functions. -/
def getLogLevel (loggerKey : String)
    (getConfigMatch : String → ContextSet → Except String ConfigMatch)
    (getConfig : String → Option Config)
    (loggerName : String) : LogLevel :=
  let loggerContext := syntheticLoggingContext loggerName
  match getConfigMatch loggerKey loggerContext with
  | .error _ => .Debug
  | .ok configMatch =>
    match getConfig loggerKey with
    | none => .Debug
    | some config =>
      if config.configType ≠ .logLevelV2 then .Debug
      else
        match extractLogLevelValue configMatch.originalMatch with
        | none => .Debug
        | some protoLogLevel => protoLogLevelToLogLevel protoLogLevel

/-! ## Concrete fixtures used by the witness theorems -/

/-- An environment with every variable unset. -/
def envEmptyFn : String → String := fun _ => ""

/-- A store builder in which every source builds synchronously. -/
def buildOkSync : ConfigSource → Except String Bool := fun _ => .ok false

/-- A nonempty interleaving of latch events. -/
def c2Events : List LatchEvent :=
  [LatchEvent.asyncSourceReady, LatchEvent.nilMatchTimeout, LatchEvent.asyncSourceReady]

/-- A base64 decoder stub for the handler witness. -/
def c3Decode : List Nat → Option (List Nat) :=
  fun l => if l = [1] then some [2] else none

/-- A proto unmarshaller stub for the handler witness. -/
def c3Unmarshal : List Nat → Option Nat :=
  fun l => if l = [2] then some 7 else none

/-- The default primary API base URL. -/
def primaryBaseURL : String := "https://primary.reforge.com"

/-- A base URL whose leading subdomain is neither primary nor secondary but
which contains the six characters of primary dot as a substring. -/
def notPrimaryBaseURL : String := "https://notprimary.example.com"

/-- Options fixture for the SSE header witness (key from the repo test). -/
def c5Options : OptionsModel :=
  { sdkKey := "does-not-matter"
    apiURLs := some [primaryBaseURL]
    sources := []
    configs := []
    customStores := [] }

/-- The version header value used in the SSE witness. -/
def c5Version : String := "test-version"

/-- A resolver match carrying a string value. -/
def c6Match : ConfigMatch :=
  { isMatch := true
    matchValue := some (ConfigValueT.str ("v"))
    originalMatch := some (ConfigValueT.str ("v")) }

/-- An internalGetValue stub that always resolves to c6Match. -/
def c6Igv : String → ContextSet → Except String ConfigMatch :=
  fun _ _ => .ok c6Match

/-- A key fixture. -/
def c6Key : String := "some.key"

/-- An int extractor that rejects every value, giving a type mismatch. -/
def rejectAllInt : ConfigValueT → Option Int := fun _ => none

/-- The default logger key from the options package. -/
def c7LoggerKey : String := "log-levels.default"

/-- The logger name used in the repo log-level scenario. -/
def c7LoggerName : String := "test.launcher"

/-- A resolver match carrying a WARN log level. -/
def c7MatchFx : ConfigMatch :=
  { isMatch := true
    matchValue := some (ConfigValueT.logLevel ProtoLogLevel.warn)
    originalMatch := some (ConfigValueT.logLevel ProtoLogLevel.warn) }

/-- A GetConfigMatch stub resolving every lookup to c7MatchFx. -/
def c7Gcm : String → ContextSet → Except String ConfigMatch :=
  fun _ _ => .ok c7MatchFx

/-- The LOG_LEVEL_V2 config behind the logger key. -/
def c7Config : Config := { key := c7LoggerKey, configType := ConfigType.logLevelV2 }

/-- A GetConfig stub returning c7Config for every key. -/
def c7Gc : String → Option Config := fun _ => some c7Config

/-- Options fixture with no SDK key anywhere. -/
def c8Options : OptionsModel :=
  { sdkKey := "", apiURLs := none, sources := [], configs := [], customStores := [] }

/-- A source descriptor that is not the memory store. -/
def c9Source : ConfigSource := { raw := "https://primary.reforge.com" }

/-- Options fixture combining inline configs with a non-memory source. -/
def c9Options : OptionsModel :=
  { sdkKey := "some-key"
    apiURLs := none
    sources := [c9Source]
    configs := [("inline.key", "inline.value")]
    customStores := [] }

/-! ## Helper lemmas -/

/-- The once-latch invariant: the Once flag tracks the channel flag, the
number of executed closes tracks the channel flag, and no close has ever
hit an already-closed channel. -/
def latchInv (s : OnceLatch) : Prop :=
  s.onceDone = s.closed ∧ s.closes = (if s.closed then 1 else 0) ∧
    s.closesOnClosed = 0

theorem latchInv_fixed_of_closed (s : OnceLatch) (hinv : latchInv s)
    (hc : s.closed = true) (events : List LatchEvent) :
    events.foldl applyLatchEvent s = s := by
  induction events with
  | nil => rfl
  | cons e rest ih =>
    have hdone : s.onceDone = true := hinv.1.trans hc
    have hstep : applyLatchEvent s e = s := by
      simp [applyLatchEvent, onceDoClose, hdone]
    simpa [hstep] using ih

/-! ## C1: latch behavior on timeout in return_error mode -/

/-- C1: in ReturnError mode with an async source that never completes, the
first evaluation call that times out returns the initialization_timeout
error but leaves the initializationComplete channel open, so a second call
again waits out the full timeout and returns the same error, instead of
returning immediately: the code contradicts the claim (and the repository
test TestReturnError_ClosesChannelOnTimeout and its changelog entry 1.2.1,
which both require the channel to be closed on the first timeout). -/
theorem c1_return_error_timeout_leaves_latch_open :
    internalGetValueLatchStep FailureMode.returnError { latchClosed := false } =
      ({ latchClosed := false }, some initializationTimeoutErrorMessage) ∧
    awaitInitializationNeverReady
      (internalGetValueLatchStep FailureMode.returnError { latchClosed := false }).1 =
      AwaitResult.timeout ∧
    internalGetValueLatchStep FailureMode.returnError
      (internalGetValueLatchStep FailureMode.returnError { latchClosed := false }).1 =
      ({ latchClosed := false }, some initializationTimeoutErrorMessage) := by
  refine ⟨rfl, rfl, rfl⟩

/-! ## C2: the latch is closed exactly once -/

/-- C2: over every nonempty interleaving of the async-source completion
callback (possibly repeated), ReturnNilMatch waiter timeouts, and the
synchronous-sources construction path, all of which close the channel only
through closeInitializationCompleteOnce, the channel ends closed, exactly
one close operation is executed, and no close is ever attempted on an
already-closed channel. -/
theorem c2_latch_closed_exactly_once (events : List LatchEvent)
    (h : events ≠ []) :
    (runLatchEvents events).closed = true ∧
    (runLatchEvents events).closes = 1 ∧
    (runLatchEvents events).closesOnClosed = 0 := by
  match events, h with
  | e :: rest, _ =>
    have hfirst : applyLatchEvent initialOnceLatch e =
        { onceDone := true, closed := true, closes := 1, closesOnClosed := 0 } := by
      simp [applyLatchEvent, onceDoClose, initialOnceLatch]
    have hrest : rest.foldl applyLatchEvent
        { onceDone := true, closed := true, closes := 1, closesOnClosed := 0 } =
        { onceDone := true, closed := true, closes := 1, closesOnClosed := 0 } :=
      latchInv_fixed_of_closed _ ⟨rfl, rfl, rfl⟩ rfl rest
    have : runLatchEvents (e :: rest) =
        { onceDone := true, closed := true, closes := 1, closesOnClosed := 0 } := by
      simpa [runLatchEvents, hfirst] using hrest
    simp [this]

/-- Witness for C2 at a concrete interleaving. -/
theorem c2_latch_closed_exactly_once_witness :
    (runLatchEvents c2Events).closed = true ∧
    (runLatchEvents c2Events).closes = 1 ∧
    (runLatchEvents c2Events).closesOnClosed = 0 :=
  c2_latch_closed_exactly_once c2Events (by decide)

/-! ## C6: type mismatch surfaces as not-found with a nil error -/

/-- C6: whenever resolution succeeds with a matched value but the extractor
for the requested type rejects it, the shared typed-getter pipeline behind
GetIntValue, GetBoolValue, GetStringValue, GetFloatValue,
GetStringSliceValue, GetDurationValue and GetJSONValue returns the zero
value of the requested type, ok=false, and a nil error. -/
theorem c6_type_mismatch_reports_not_found {T : Type} [Inhabited T]
    (internalGetValue : String → ContextSet → Except String ConfigMatch)
    (boundContext : ContextSet) (key : String) (contextSet : ContextSet)
    (parseFunc : ConfigValueT → Option T) (m : ConfigMatch) (v : ConfigValueT)
    (hres : internalGetValue key (ctxMerge boundContext contextSet) = .ok m)
    (hmatch : m.matchValue = some v)
    (hreject : parseFunc v = none) :
    clientInternalGetValueFunc internalGetValue boundContext key contextSet parseFunc =
      (default, false, none) := by
  simp [clientInternalGetValueFunc, fetchAndProcessValue, hres, hmatch,
    clientParseValueWrapper, hreject]

/-- Witness for C6 at a concrete resolver and extractor. -/
theorem c6_type_mismatch_reports_not_found_witness :
    clientInternalGetValueFunc c6Igv [] c6Key [] rejectAllInt =
      (default, false, none) :=
  c6_type_mismatch_reports_not_found c6Igv [] c6Key [] rejectAllInt c6Match
    (ConfigValueT.str ("v")) rfl rfl rfl

/-! ## C10: WithDefault wrappers always report found -/

/-- C10: every Get*ValueWithDefault wrapper returns true as its wasFound
result, for every key, context and underlying outcome, including when the
typed lookup errored or reported ok=false and the caller default was
substituted, so wasFound never distinguishes a real hit from a fallback. -/
theorem c10_with_default_always_reports_found {T : Type} [Inhabited T]
    (internalGetValue : String → ContextSet → Except String ConfigMatch)
    (boundContext : ContextSet) (key : String) (contextSet : ContextSet)
    (parseFunc : ConfigValueT → Option T) (defaultValue : T) :
    (getValueWithDefault internalGetValue boundContext key contextSet parseFunc
      defaultValue).2 = true := by
  unfold getValueWithDefault
  rcases h : clientInternalGetValueFunc internalGetValue boundContext key
      contextSet parseFunc with ⟨v, ok, err⟩
  by_cases hc : (err.isSome || !ok) = true
  · simp [hc]
  · have hok : ok = true := by
      cases ok
      · simp at hc
      · rfl
    by_cases he : err.isSome = true
    · simp [hc, hok, he]
    · simp [hc, hok, he]

/-- Witness for C10 at a concrete resolver, extractor and default. -/
theorem c10_with_default_always_reports_found_witness :
    (getValueWithDefault c6Igv [] c6Key [] rejectAllInt 5).2 = true :=
  c10_with_default_always_reports_found c6Igv [] c6Key [] rejectAllInt 5

/-! ## C8: SDK key resolution order and construction failure -/

/-- C8: SdkKeySettingOrEnvVar returns the in-options key when non-empty,
else the preferred env var REFORGE_BACKEND_SDK_KEY when non-empty, else
the legacy PREFAB_API_KEY when non-empty; when all three are empty it
errors and NewSdk fails at construction. -/
theorem c8_sdk_key_resolution (env : String → String)
    (build : ConfigSource → Except String Bool) (o : OptionsModel) :
    (o.sdkKey ≠ "" → sdkKeySettingOrEnvVar env o.sdkKey = .ok o.sdkKey)
    ∧ (o.sdkKey = "" → env SdkKeyEnvVar ≠ "" →
        sdkKeySettingOrEnvVar env o.sdkKey = .ok (env SdkKeyEnvVar))
    ∧ (o.sdkKey = "" → env SdkKeyEnvVar = "" → env LegacyApiKeyEnvVar ≠ "" →
        sdkKeySettingOrEnvVar env o.sdkKey = .ok (env LegacyApiKeyEnvVar))
    ∧ (o.sdkKey = "" → env SdkKeyEnvVar = "" → env LegacyApiKeyEnvVar = "" →
        sdkKeySettingOrEnvVar env o.sdkKey = .error sdkKeyMissingErrorMessage
        ∧ isErrorResult (newSdk env build o) = true) := by
  refine ⟨?_, ?_, ?_, ?_⟩
  · intro hk
    simp [sdkKeySettingOrEnvVar, hk]
  · intro hk he
    simp [sdkKeySettingOrEnvVar, hk, he]
  · intro hk he hl
    simp [sdkKeySettingOrEnvVar, hk, he, hl]
  · intro hk he hl
    have herr : sdkKeySettingOrEnvVar env o.sdkKey =
        .error sdkKeyMissingErrorMessage := by
      simp [sdkKeySettingOrEnvVar, hk, he, hl]
    exact ⟨herr, by simp [newSdk, herr, isErrorResult]⟩

/-- Witness for C8 with the key absent everywhere. -/
theorem c8_sdk_key_resolution_witness :
    sdkKeySettingOrEnvVar envEmptyFn c8Options.sdkKey =
      .error sdkKeyMissingErrorMessage
    ∧ isErrorResult (newSdk envEmptyFn buildOkSync c8Options) = true :=
  (c8_sdk_key_resolution envEmptyFn buildOkSync c8Options).2.2.2 rfl rfl rfl

/-! ## C9: inline configs are exclusive with non-memory sources and custom
stores -/

/-- C9: NewSdk returns a construction error whenever the inline-configs
map is non-empty and either the source list includes a non-memory source
(more than one source, or a single source that is not the memory store) or
any custom store is supplied. -/
theorem c9_inline_configs_exclusivity (env : String → String)
    (build : ConfigSource → Except String Bool) (o : OptionsModel)
    (hconfigs : o.configs ≠ [])
    (hconflict : usesNonMemorySource o.sources = true ∨ o.customStores ≠ []) :
    isErrorResult (newSdk env build o) = true := by
  unfold newSdk
  cases hkey : sdkKeySettingOrEnvVar env o.sdkKey with
  | error e => simp [isErrorResult]
  | ok key =>
    cases hbuild : buildAllStores build o.sources with
    | error e => simp [isErrorResult]
    | ok anyAsync =>
      have hlen : decide (o.configs.length > 0) = true := by
        simp [List.length_pos, hconfigs]
      cases hconflict with
      | inl hsrc => simp [hsrc, hlen, isErrorResult]
      | inr hcs =>
        have hcslen : decide (o.customStores.length > 0) = true := by
          simp [List.length_pos, hcs]
        by_cases hsrc : usesNonMemorySource o.sources = true
        · simp [hsrc, hlen, isErrorResult]
        · have hsrc2 : usesNonMemorySource o.sources = false := by
            cases h2 : usesNonMemorySource o.sources
            · rfl
            · exact absurd h2 hsrc
          simp [hsrc2, hlen, hcslen, isErrorResult]

/-- Witness for C9: inline configs combined with one non-memory source. -/
theorem c9_inline_configs_exclusivity_witness :
    isErrorResult (newSdk envEmptyFn buildOkSync c9Options) = true :=
  c9_inline_configs_exclusivity envEmptyFn buildOkSync c9Options (by decide)
    (Or.inl (by decide))

/-! ## C7: GetLogLevel branch behavior -/

/-- C7: GetLogLevel for a logger name consults the resolver at the
configured logger key with the synthetic context carrying lang=go and
logger-path=name under reforge-sdk-logging, and returns Debug when the
lookup errors, when the config is missing from the store, when its type is
not LOG_LEVEL_V2, or when log-level extraction from the matched value
fails; otherwise it returns the extracted level converted to the SDK
LogLevel enum. -/
theorem c7_get_log_level_branches (loggerKey : String)
    (gcm : String → ContextSet → Except String ConfigMatch)
    (gc : String → Option Config) (loggerName : String) :
    (∀ e, gcm loggerKey (syntheticLoggingContext loggerName) = .error e →
       getLogLevel loggerKey gcm gc loggerName = LogLevel.Debug)
    ∧ (∀ cm, gcm loggerKey (syntheticLoggingContext loggerName) = .ok cm →
        gc loggerKey = none →
        getLogLevel loggerKey gcm gc loggerName = LogLevel.Debug)
    ∧ (∀ cm cfg, gcm loggerKey (syntheticLoggingContext loggerName) = .ok cm →
        gc loggerKey = some cfg → cfg.configType ≠ ConfigType.logLevelV2 →
        getLogLevel loggerKey gcm gc loggerName = LogLevel.Debug)
    ∧ (∀ cm cfg, gcm loggerKey (syntheticLoggingContext loggerName) = .ok cm →
        gc loggerKey = some cfg → cfg.configType = ConfigType.logLevelV2 →
        extractLogLevelValue cm.originalMatch = none →
        getLogLevel loggerKey gcm gc loggerName = LogLevel.Debug)
    ∧ (∀ cm cfg l, gcm loggerKey (syntheticLoggingContext loggerName) = .ok cm →
        gc loggerKey = some cfg → cfg.configType = ConfigType.logLevelV2 →
        extractLogLevelValue cm.originalMatch = some l →
        getLogLevel loggerKey gcm gc loggerName = protoLogLevelToLogLevel l) := by
  refine ⟨?_, ?_, ?_, ?_, ?_⟩
  · intro e he
    simp [getLogLevel, he]
  · intro cm hcm hgc
    simp [getLogLevel, hcm, hgc]
  · intro cm cfg hcm hgc htype
    simp [getLogLevel, hcm, hgc, htype]
  · intro cm cfg hcm hgc htype hext
    simp [getLogLevel, hcm, hgc, htype, hext]
  · intro cm cfg l hcm hgc htype hext
    simp [getLogLevel, hcm, hgc, htype, hext]

/-- Witness for C7: a WARN-level LOG_LEVEL_V2 config resolves to Warn. -/
theorem c7_get_log_level_branches_witness :
    getLogLevel c7LoggerKey c7Gcm c7Gc c7LoggerName =
      protoLogLevelToLogLevel ProtoLogLevel.warn :=
  (c7_get_log_level_branches c7LoggerKey c7Gcm c7Gc c7LoggerName).2.2.2.2
    c7MatchFx c7Config ProtoLogLevel.warn rfl rfl rfl rfl

/-! ## C3: the SSE event handler mutates the store iff the payload decodes -/

/-- C3: the handler installed by StartSSEConnection calls
SetFromConfigsProto exactly once with the decoded snapshot if and only if
the event data is non-empty, base64-decodes, and unmarshals as a Configs
message; on empty data or either decode failure it performs no store call,
and being a total function it cannot crash. -/
theorem c3_sse_handler_mutates_iff_decoded {Configs : Type}
    (decodeBase64 : List Nat → Option (List Nat))
    (unmarshalConfigs : List Nat → Option Configs) (data : List Nat) :
    (∀ cfgs : Configs,
       sseEventHandler decodeBase64 unmarshalConfigs data = [cfgs] ↔
         (data ≠ [] ∧ ∃ d, decodeBase64 data = some d ∧
           unmarshalConfigs d = some cfgs))
    ∧ ((data = [] ∨ decodeBase64 data = none ∨
         (∃ d, decodeBase64 data = some d ∧ unmarshalConfigs d = none)) →
       sseEventHandler decodeBase64 unmarshalConfigs data = []) := by
  by_cases hd : data = []
  · subst hd
    exact ⟨fun cfgs => by simp [sseEventHandler], fun _ => by simp [sseEventHandler]⟩
  · have hlen : ¬data.length = 0 := by
      simpa [List.length_eq_zero] using hd
    cases hdec : decodeBase64 data with
    | none =>
      refine ⟨fun cfgs => ?_, fun _ => ?_⟩
      · simp [sseEventHandler, hlen, hdec]
      · simp [sseEventHandler, hlen, hdec]
    | some d =>
      cases hun : unmarshalConfigs d with
      | none =>
        refine ⟨fun cfgs => ?_, fun _ => ?_⟩
        · simp [sseEventHandler, hlen, hdec, hun]
        · simp [sseEventHandler, hlen, hdec, hun]
      | some c =>
        refine ⟨fun cfgs => ?_, fun hfail => ?_⟩
        · simp [sseEventHandler, hlen, hdec, hun, hd, eq_comm]
        · rcases hfail with h | h | ⟨d2, hd2, hu2⟩
          · exact absurd h hd
          · exact absurd h (by simp)
          · have : d2 = d := by injection hd2 with h2; exact h2.symm
            subst this
            rw [hun] at hu2
            exact absurd hu2 (by simp)

/-- Witness for C3: a payload that decodes end to end reaches the store
exactly once. -/
theorem c3_sse_handler_mutates_iff_decoded_witness :
    sseEventHandler c3Decode c3Unmarshal [1] = [7] :=
  ((c3_sse_handler_mutates_iff_decoded c3Decode c3Unmarshal [1]).1 7).mpr
    ⟨by decide, [2], by decide, by decide⟩

/-! ## C4: stream URL derivation -/

theorem string_mk_toList (s : String) : String.mk s.toList = s := rfl

theorem altAt_nil (i : Nat) : altAt [] i = none := by
  unfold altAt
  rw [List.drop_nil]
  decide

theorem altAt_cons_succ (c : Char) (l : List Char) (i : Nat) :
    altAt (c :: l) (i + 1) = altAt l i := rfl

theorem rfo_of_no_match (l : List Char)
    (h : ∀ i, i < l.length → altAt l i = none) :
    replaceFirstOccurrenceChars l = l := by
  induction l with
  | nil => rfl
  | cons c rest ih =>
    have h0 : altAt (c :: rest) 0 = none := h 0 (by simp)
    have hrest : ∀ i, i < rest.length → altAt rest i = none := by
      intro i hi
      have := h (i + 1) (by simpa using Nat.succ_lt_succ hi)
      rwa [altAt_cons_succ] at this
    simp [replaceFirstOccurrenceChars, h0, ih hrest]

theorem rfo_of_first_match (l : List Char) (i n : Nat)
    (hm : altAt l i = some n) (hbefore : ∀ j, j < i → altAt l j = none) :
    replaceFirstOccurrenceChars l =
      l.take i ++ streamDotChars ++ l.drop (i + n) := by
  induction l generalizing i with
  | nil =>
    rw [altAt_nil] at hm
    exact absurd hm (by simp)
  | cons c rest ih =>
    cases i with
    | zero =>
      simp [replaceFirstOccurrenceChars, hm]
    | succ i' =>
      have h0 : altAt (c :: rest) 0 = none := hbefore 0 (Nat.succ_pos i')
      have hm' : altAt rest i' = some n := by
        rw [← altAt_cons_succ c rest i']
        exact hm
      have hb' : ∀ j, j < i' → altAt rest j = none := by
        intro j hj
        have := hbefore (j + 1) (Nat.succ_lt_succ hj)
        rwa [altAt_cons_succ] at this
      have harith : i' + 1 + n = (i' + n) + 1 := by omega
      simp [replaceFirstOccurrenceChars, h0, ih i' hm' hb', harith,
        List.take_succ_cons, List.drop_succ_cons]

/-- C4 counterexample: the claim predicts that a base whose leading
subdomain is neither primary nor secondary gets only the suffix appended
with the rest unchanged; but the code replaces the first occurrence of the
alternation anywhere in the string, rewriting this URL in the middle of
its leading subdomain. -/
theorem c4_leading_subdomain_counterexample :
    buildStreamURL notPrimaryBaseURL ≠ notPrimaryBaseURL ++ streamSuffix ∧
    buildStreamURL notPrimaryBaseURL =
      "https://notstream.example.com/api/v2/sse/config" := by
  decide

/-- C4 (amended): BuildSSEClient derives the stream endpoint by replacing
the leftmost occurrence of the substring primary-dot or secondary-dot,
anywhere in the base URL, with the stream subdomain text and appending the
SSE path; a base containing neither substring gets only the suffix
appended, with the rest unchanged. -/
theorem c4_stream_url_first_occurrence (s : String) :
    ((∀ i, i < s.toList.length → altAt s.toList i = none) →
       buildStreamURL s = s ++ streamSuffix)
    ∧ (∀ i n, altAt s.toList i = some n →
        (∀ j, j < i → altAt s.toList j = none) →
        buildStreamURL s =
          String.mk (s.toList.take i ++ streamDotChars ++ s.toList.drop (i + n))
            ++ streamSuffix) := by
  constructor
  · intro h
    unfold buildStreamURL
    rw [rfo_of_no_match s.toList h, string_mk_toList]
  · intro i n hm hb
    unfold buildStreamURL
    rw [rfo_of_first_match s.toList i n hm hb]

/-- Witness for C4 (amended) on the default primary base URL. -/
theorem c4_stream_url_first_occurrence_witness :
    buildStreamURL primaryBaseURL =
      String.mk (primaryBaseURL.toList.take 8 ++ streamDotChars ++
        primaryBaseURL.toList.drop (8 + 8)) ++ streamSuffix :=
  (c4_stream_url_first_occurrence primaryBaseURL).2 8 8 (by decide) (by decide)

/-! ## C5: request headers and the per-attempt resume header -/

theorem setHeader_cons_ne (p : String × String) (rest : List (String × String))
    (k v : String) (hp : ¬p.1 = k) :
    setHeader (p :: rest) k v = p :: setHeader rest k v := by
  by_cases hr : rest.any (fun q => q.1 = k) = true
  · simp [setHeader, hp, hr]
  · simp [setHeader, hp, hr]

theorem lookupHeader_setHeader_self (hs : List (String × String)) (k v : String) :
    lookupHeader (setHeader hs k v) k = some v := by
  induction hs with
  | nil => simp [setHeader, lookupHeader]
  | cons p rest ih =>
    by_cases hp : p.1 = k
    · have hany : (p :: rest).any (fun q => q.1 = k) = true := by
        simp [List.any_cons, hp]
      simp [setHeader, lookupHeader, hany, hp]
    · rw [setHeader_cons_ne p rest k v hp]
      simpa [lookupHeader, List.find?_cons, hp] using ih

theorem sseAttemptHeaders_resume (ws : List Int) :
    ∀ (headers : List (String × String)) (i : Nat) (hi : i < ws.length)
      (hi2 : i < (sseAttemptHeaders headers ws).length),
      lookupHeader ((sseAttemptHeaders headers ws).get ⟨i, hi2⟩) resumeHeaderKey =
        some (toString (ws.get ⟨i, hi⟩)) := by
  induction ws with
  | nil =>
    intro headers i hi
    exact absurd hi (by simp)
  | cons w ws' ih =>
    intro headers i hi hi2
    cases i with
    | zero => exact lookupHeader_setHeader_self headers resumeHeaderKey (toString w)
    | succ i' =>
      exact ih (setHeader headers resumeHeaderKey (toString w)) i'
        (Nat.lt_of_succ_lt_succ hi) (Nat.lt_of_succ_lt_succ hi2)

/-- C5: for options with a non-empty configured API URL list (and the URL
env overrides unset) and SDK key k, BuildSSEClient installs exactly the
Authorization header Basic followed by base64 of authuser colon k, the
SDK-version header, and Accept text/event-stream; and on every subscribe
attempt (initial connect and each reconnect) the StartSSEConnection loop
sets the resume header x-prefab-start-at-id to the decimal string of the
watermark read at that attempt. -/
theorem c5_sse_request_headers (env : String → String) (ver : String)
    (o : OptionsModel) (urls : List String)
    (h1 : env APIURLVar = "") (h2 : env APIURLOverrideVar = "")
    (h3 : o.apiURLs = some urls) (h4 : urls ≠ [])
    (h5 : ∀ u ∈ urls, u ≠ "") :
    (∃ client, buildSSEClient env ver o = .ok client ∧
       lookupHeader client.headers authorizationHeaderKey =
         some (basicSchemeStr ++
           base64EncodeToString (strBytes (authUserColonStr ++ o.sdkKey))) ∧
       lookupHeader client.headers sdkVersionHeaderKey = some ver ∧
       lookupHeader client.headers acceptHeaderKey = some acceptHeaderValue)
    ∧ (∀ (headers : List (String × String)) (ws : List Int) (i : Nat)
        (hi : i < ws.length) (hi2 : i < (sseAttemptHeaders headers ws).length),
        lookupHeader ((sseAttemptHeaders headers ws).get ⟨i, hi2⟩) resumeHeaderKey =
          some (toString (ws.get ⟨i, hi⟩))) := by
  refine ⟨?_, fun headers ws i hi hi2 => sseAttemptHeaders_resume ws headers i hi hi2⟩
  have hfilter : urls.filter (fun u => u ≠ "") = urls :=
    List.filter_eq_self.mpr (by
      intro u hu
      simpa using h5 u hu)
  have hurls : prefabAPIURLEnvVarOrSetting env o.apiURLs = .ok urls := by
    unfold prefabAPIURLEnvVarOrSetting
    rw [h3]
    simp [h1, h2]
    intro a ha
    simpa using h5 a ha
  obtain ⟨u, rest, hu⟩ := List.exists_cons_of_ne_nil h4
  subst hu
  have hbuild : buildSSEClient env ver o = .ok
      { url := buildStreamURL u
        headers := [(authorizationHeaderKey, basicSchemeStr ++
                      base64EncodeToString (strBytes (authUserColonStr ++ o.sdkKey))),
                    (sdkVersionHeaderKey, ver),
                    (acceptHeaderKey, acceptHeaderValue)] } := by
    unfold buildSSEClient
    rw [hurls]
  refine ⟨_, hbuild, ?_, ?_, ?_⟩
  · simp [lookupHeader, authorizationHeaderKey, sdkVersionHeaderKey,
      acceptHeaderKey]
  · simp [lookupHeader, authorizationHeaderKey, sdkVersionHeaderKey,
      acceptHeaderKey]
  · simp [lookupHeader, authorizationHeaderKey, sdkVersionHeaderKey,
      acceptHeaderKey]

/-- Witness for C5 at the default primary URL and the key from the repo
test suite. -/
theorem c5_sse_request_headers_witness :
    (∃ client, buildSSEClient envEmptyFn c5Version c5Options = .ok client ∧
       lookupHeader client.headers authorizationHeaderKey =
         some (basicSchemeStr ++
           base64EncodeToString (strBytes (authUserColonStr ++ c5Options.sdkKey))) ∧
       lookupHeader client.headers sdkVersionHeaderKey = some c5Version ∧
       lookupHeader client.headers acceptHeaderKey = some acceptHeaderValue)
    ∧ (∀ (headers : List (String × String)) (ws : List Int) (i : Nat)
        (hi : i < ws.length) (hi2 : i < (sseAttemptHeaders headers ws).length),
        lookupHeader ((sseAttemptHeaders headers ws).get ⟨i, hi2⟩) resumeHeaderKey =
          some (toString (ws.get ⟨i, hi⟩))) :=
  c5_sse_request_headers envEmptyFn c5Version c5Options [primaryBaseURL]
    rfl rfl rfl (by decide) (by decide)

end Reforge
